import Mathlib

/-!
Verification of the i19 screening pipeline against its specification.

The repository has two parts relevant here:

* the bounded external-process runner and its non-blocking stream reader
  (`i19/util/procrunner.py`).  Its implementation file is not among the
  sources, only its unit tests (`util/tst_procrunner.py`) are, so the
  runner is modelled from the specification (sections 3-8 of the spec).
* the pipeline driver (`command_line/screen.py`), embedded directly from
  the source.
-/

/-! ## Bounded process runner, modelled from the spec -/

/-- Values that can appear in the result mapping returned by the runner. -/
inductive RVal
  | vStr (s : String)
  | vInt (i : Int)
  | vRat (q : ℚ)
  | vBool (b : Bool)
  | vCmd (c : List String)
deriving DecidableEq

/-- Lookup of a key in an association list with string keys. -/
def rlookup (k : String) : List (String × RVal) → Option RVal
  | [] => none
  | (k', v) :: rest => if k' = k then some v else rlookup k rest

/-- Modelled from the spec: a `ProcessInvocation` (spec section 3) — the
command as an ordered list of argument strings and an optional wall-clock
timeout in seconds. -/
structure Invocation where
  command : List String
  timeout : Option ℚ
deriving DecidableEq

/-- Modelled from the spec: the externally observable behaviour of one child
process, abstracting the operating system.  `launchOk` is whether the
executable can be started at all; `exitsAt` is the wall-clock time of natural
exit (`none` for a child that never exits); `capturedStdout`/`capturedStderr`
are the portions of output already drained when the timeout deadline passes. -/
structure ChildSpec where
  launchOk : Bool
  exitsAt : Option ℚ
  exitcode : Int
  fullStdout : String
  fullStderr : String
  capturedStdout : String
  capturedStderr : String
  killedExitcode : Int
  diesWithinGrace : Bool
deriving DecidableEq

/-- What a returning call to the runner produced: the result mapping plus the
bookkeeping the spec's timeout policy talks about (which signals were sent and
whether the child is still running when the call returns). -/
structure RunReturn where
  result : List (String × RVal)
  terminateSent : Bool
  killSent : Bool
  childRunningAfter : Bool
deriving DecidableEq

/-- Outcome of one runner invocation: an `ExecutionError`-class exception at
launch, divergence (no timeout configured and the child never exits), or a
returned result. -/
inductive RunOutcome
  | launchError
  | diverges
  | ret (r : RunReturn)
deriving DecidableEq

/-- Modelled from the spec: the grace period between the graceful termination
signal and the forceful kill (spec section 4.1 step 4; the concrete value is
an implementation constant). -/
def gracePeriod : ℚ := 1 / 10

/-- Modelled from the spec: the result mapping surface (spec section 6) with
its six keys. -/
def mkResult (cmd : List String) (code : Int) (out err : String) (rt : ℚ)
    (tmo : Bool) : List (String × RVal) :=
  [("command", RVal.vCmd cmd), ("exitcode", RVal.vInt code),
   ("stdout", RVal.vStr out), ("stderr", RVal.vStr err),
   ("runtime", RVal.vRat rt), ("timeout", RVal.vBool tmo)]

/-- Modelled from the spec: `run_process` of `i19/util/procrunner.py`, whose
implementation is not among the sources (only its tests are).  Spec sections
4.1 and 7: a launch failure raises immediately; a clean or non-zero child exit
within the deadline returns a result with the full captured output and no
termination signal sent; once the deadline passes the runner sends a graceful
termination signal, waits the grace period, sends a forceful kill if the child
is still alive, and returns a timed-out result holding the output captured so
far.  The child is dead on every return path. -/
def run_process (inv : Invocation) (child : ChildSpec) : RunOutcome :=
  if child.launchOk = false then RunOutcome.launchError
  else
    match inv.timeout with
    | none =>
      match child.exitsAt with
      | none => RunOutcome.diverges
      | some t =>
        RunOutcome.ret
          ⟨mkResult inv.command child.exitcode child.fullStdout child.fullStderr t false,
           false, false, false⟩
    | some dl =>
      match child.exitsAt with
      | some t =>
        if t ≤ dl then
          RunOutcome.ret
            ⟨mkResult inv.command child.exitcode child.fullStdout child.fullStderr t false,
             false, false, false⟩
        else
          RunOutcome.ret
            ⟨mkResult inv.command child.killedExitcode child.capturedStdout
               child.capturedStderr (dl + gracePeriod) true,
             true, !child.diesWithinGrace, false⟩
      | none =>
        RunOutcome.ret
          ⟨mkResult inv.command child.killedExitcode child.capturedStdout
             child.capturedStderr (dl + gracePeriod) true,
           true, !child.diesWithinGrace, false⟩

/-! ## Non-blocking stream reader, modelled from the spec -/

/-- An observable interaction with one output stream of a child process: the
child writes a chunk of text, or the stream is closed. -/
inductive StreamEvent
  | write (s : String)
  | close
deriving DecidableEq

/-- Modelled from the spec: the observable state of a `_NonBlockingStreamReader`
(spec section 3) — the accumulated text and the finished flag. -/
structure NBSRState where
  buffer : String
  finished : Bool
deriving DecidableEq

/-- A freshly created reader: nothing accumulated, not finished. -/
def nbsrInit : NBSRState := ⟨"", false⟩

/-- Concatenation of a list of strings in order. -/
def concatAll : List String → String
  | [] => ""
  | w :: ws => w ++ concatAll ws

/-- Modelled from the spec: the reader drains its stream into an in-memory
accumulator, in the order the child wrote the data, and flips its finished
flag once the stream is closed and drained (spec sections 3 and 5). -/
def nbsrStep (st : NBSRState) (e : StreamEvent) : NBSRState :=
  match e with
  | StreamEvent.write s => ⟨st.buffer ++ s, st.finished⟩
  | StreamEvent.close => ⟨st.buffer, true⟩

/-- The reader state after processing a sequence of stream events. -/
def runNBSR (evs : List StreamEvent) : NBSRState := evs.foldl nbsrStep nbsrInit

/-! ## Concurrent pipe draining, modelled from the spec

The spec's core concurrency property (sections 5 and 8): a child writing to
both stdout and stderr through bounded OS pipe buffers must not deadlock the
runner, because each stream has its own reader and neither read can starve
the other.  We model the two pipes as FIFO queues of bounded capacity, the
child as a script of writes that blocks when the target pipe is full, and one
scheduler tick as: each reader drains one unit from its own pipe, then the
child writes its next unit if there is room. -/

/-- Which stream a unit of child output goes to. -/
inductive Tgt
  | tOut
  | tErr
deriving DecidableEq

/-- State of the child/pipes/readers system. -/
structure PipeState where
  script : List (Tgt × Char)
  outBuf : List Char
  errBuf : List Char
  outCapt : List Char
  errCapt : List Char
deriving DecidableEq

/-- The stdout reader drains one unit from its pipe, if any. -/
def drainOut (s : PipeState) : PipeState :=
  match s.outBuf with
  | [] => s
  | c :: rest => ⟨s.script, rest, s.errBuf, s.outCapt ++ [c], s.errCapt⟩

/-- The stderr reader drains one unit from its pipe, if any. -/
def drainErr (s : PipeState) : PipeState :=
  match s.errBuf with
  | [] => s
  | c :: rest => ⟨s.script, s.outBuf, rest, s.outCapt, s.errCapt ++ [c]⟩

/-- The child writes its next unit if the target pipe has room, otherwise it
blocks (the OS pipe buffer is full). -/
def childWrite (cap : Nat) (s : PipeState) : PipeState :=
  match s.script with
  | [] => s
  | (Tgt.tOut, c) :: rest =>
    if s.outBuf.length < cap then ⟨rest, s.outBuf ++ [c], s.errBuf, s.outCapt, s.errCapt⟩
    else s
  | (Tgt.tErr, c) :: rest =>
    if s.errBuf.length < cap then ⟨rest, s.outBuf, s.errBuf ++ [c], s.outCapt, s.errCapt⟩
    else s

/-- One scheduler tick: both readers drain concurrently, then the child runs. -/
def tick (cap : Nat) (s : PipeState) : PipeState := childWrite cap (drainErr (drainOut s))

/-- Iterated ticks. -/
def ticksN (cap : Nat) : Nat → PipeState → PipeState
  | 0, s => s
  | n + 1, s => ticksN cap n (tick cap s)

/-- The invocation is complete: the child has written its whole script and
both pipes have been fully drained. -/
def pipesDone (s : PipeState) : Prop := s.script = [] ∧ s.outBuf = [] ∧ s.errBuf = []

instance (s : PipeState) : Decidable (pipesDone s) := by
  unfold pipesDone; infer_instance

/-- Remaining work: each scripted unit costs a write and a drain, each
buffered unit a drain. -/
def pmeasure (s : PipeState) : Nat :=
  2 * s.script.length + s.outBuf.length + s.errBuf.length

/-- Initial state for a given child write script. -/
def initPipes (script : List (Tgt × Char)) : PipeState := ⟨script, [], [], [], []⟩

/-- The stdout portion of a write script, in write order. -/
def outOf : List (Tgt × Char) → List Char
  | [] => []
  | (Tgt.tOut, c) :: rest => c :: outOf rest
  | (Tgt.tErr, _) :: rest => outOf rest

/-- The stderr portion of a write script, in write order. -/
def errOf : List (Tgt × Char) → List Char
  | [] => []
  | (Tgt.tOut, _) :: rest => errOf rest
  | (Tgt.tErr, c) :: rest => c :: errOf rest

/-- Both pipe buffers respect the capacity bound. -/
def pipeInv (cap : Nat) (s : PipeState) : Prop :=
  s.outBuf.length ≤ cap ∧ s.errBuf.length ≤ cap

/-- Everything that must eventually reach the stdout reader: what it already
captured, what sits in the pipe, and what the child has yet to write. -/
def outFinal (s : PipeState) : List Char := s.outCapt ++ s.outBuf ++ outOf s.script

/-- Everything that must eventually reach the stderr reader. -/
def errFinal (s : PipeState) : List Char := s.errCapt ++ s.errBuf ++ errOf s.script

/-! ## The pipeline driver, from `src/command_line/screen.py` -/

/-- The data a successful `dials.create_profile_model` run makes available to
the driver (read back from `experiments_with_profile_model.json` in
`_create_profile_model`): image count, oscillation width and sigma_m. -/
structure ProfileData where
  num_images : Nat
  oscillation : ℚ
  sigma_m : ℚ
deriving DecidableEq

/-- The shared mutable instance attributes of `i19_screen` that
`_create_profile_model` writes and `_check_intensities` reads. -/
structure ScreenState where
  sigma_m_basic : Option ℚ
  sigma_m_extended : Option ℚ
  num_images : Option Nat
  oscillation : Option ℚ
deriving DecidableEq

/-- Python truthiness of an optional float attribute: `None` and `0.0` are
falsy, everything else truthy (`if self._sigma_m_basic:` in the source). -/
def pyTruthy : Option ℚ → Bool
  | none => false
  | some x => decide (x ≠ 0)

/-- `i19_screen._create_profile_model` (screen.py lines 409-438): reset both
sigma attributes to `None`, run the basic profile model and on a zero exit
code store its data, run the extended profile model and on a zero exit code
store its data, and succeed if either sigma attribute is truthy.  Each
external run is abstracted as `Option ProfileData` (`none` for a non-zero
exit code). -/
def create_profile_model (st : ScreenState) (basicRun extendedRun : Option ProfileData) :
    ScreenState × Bool :=
  let st1 : ScreenState := ⟨none, none, st.num_images, st.oscillation⟩
  let st2 : ScreenState :=
    match basicRun with
    | some d => ⟨some d.sigma_m, st1.sigma_m_extended, some d.num_images, some d.oscillation⟩
    | none => st1
  let st3 : ScreenState :=
    match extendedRun with
    | some d => ⟨st2.sigma_m_basic, some d.sigma_m, some d.num_images, some d.oscillation⟩
    | none => st2
  (st3, pyTruthy st3.sigma_m_basic || pyTruthy st3.sigma_m_extended)

/-- The average-to-peak formula of `_check_intensities` (screen.py lines
213-222): `M = sqrt(pi) * sigma_m * erf(oscillation / (2 * sigma_m))` and the
ratio is `M / oscillation`.  `sqrt(pi)` and `erf` are abstracted as
parameters since they are irrational real functions. -/
def ratioFormula (erf : ℚ → ℚ) (sqrtPi osc sigma : ℚ) : ℚ :=
  sqrtPi * sigma * erf (osc / (2 * sigma)) / osc

/-- The ratio derived from one optional sigma attribute: computed only when
the attribute is truthy in the Python sense. -/
def ratioOf (erf : ℚ → ℚ) (sqrtPi osc : ℚ) : Option ℚ → Option ℚ
  | some s => if s ≠ 0 then some (ratioFormula erf sqrtPi osc s) else none
  | none => none

/-- The average-to-peak ratio computation of `i19_screen._check_intensities`
(screen.py lines 209-226): `average_to_peak_basic` starts at `1` and is
overwritten when `mosaicity_correction` is set and `_sigma_m_basic` is
truthy; `average_to_peak_extended` starts at `None` and is set when
`_sigma_m_extended` is truthy.  Reads only the instance attributes
`_sigma_m_basic`, `_sigma_m_extended` and `_oscillation`. -/
def average_to_peak_ratios (erf : ℚ → ℚ) (sqrtPi : ℚ) (st : ScreenState)
    (mosaicity_correction : Bool) : ℚ × Option ℚ :=
  let osc := st.oscillation.getD 0
  if mosaicity_correction then
    ((ratioOf erf sqrtPi osc st.sigma_m_basic).getD 1,
     ratioOf erf sqrtPi osc st.sigma_m_extended)
  else (1, none)

/-- The externally observable actions of `i19_screen.run` and the helper
methods it calls. -/
inductive Ev
  | printHelp
  | printVersion
  | configLogging
  | countProcessors
  | importData
  | findSpots (strong : Bool)
  | indexAttempt
  | refineStep
  | createProfileModel
  | reportStep
  | predictStep
  | checkIntensities
  | refineBravais
deriving DecidableEq

/-- Outcomes of the external tool invocations, abstracted: each flag is
whether the corresponding helper succeeds (a `false` means the helper calls
`sys.exit(1)`, except for `_index` and `_create_profile_model`, which return
`False` to the driver). -/
structure Outcomes where
  countProcOk : Bool
  importOk : Bool
  countImagesOk : Bool
  nImages : Nat
  findSpots1Ok : Bool
  index1Ok : Bool
  findSpots2Ok : Bool
  index2Ok : Bool
  profile1Ok : Bool
  refineOk : Bool
  profile2Ok : Bool
  reportOk : Bool
  checkOk : Bool
  bravaisOk : Bool
deriving DecidableEq

/-- A trace of events together with whether control continues (`false` means
the driver exited via `sys.exit`). -/
def Step := List Ev × Bool

/-- Sequencing of driver steps: the second step runs only if the first did
not exit. -/
def sAnd (a b : Step) : Step :=
  if a.2 then (a.1 ++ b.1, b.2) else a

/-- `_count_processors` (screen.py lines 157-169): with an explicit `nproc=`
argument no external process runs; otherwise `libtbx.show_number_of_processors`
runs and a failure exits. -/
def count_processors_step (o : Outcomes) (nprocGiven : Bool) : Step :=
  if nprocGiven then ([], true) else ([Ev.countProcessors], o.countProcOk)

/-- The import branch of `run` (screen.py lines 500-504): a single `.json`
argument is taken as the datablock and no import runs; otherwise `_import`
runs (and exits on failure). -/
def import_step (o : Outcomes) (args : List String) : Step :=
  if args.length == 1 && (args.headD "").endsWith ".json" then ([], true)
  else ([Ev.importData], o.importOk)

/-- The spot finding / indexing phase of `run` (screen.py lines 511-528):
find spots, index; on indexing failure find spots again with
`sigma_strong=15`, index again, and exit if that also fails. -/
def indexing_phase (o : Outcomes) : Step :=
  sAnd ([Ev.findSpots false], o.findSpots1Ok)
    (sAnd ([Ev.indexAttempt], true)
      (if o.index1Ok then ([], true)
       else
         sAnd ([Ev.findSpots true], o.findSpots2Ok)
           (sAnd ([Ev.indexAttempt], true)
             (if o.index2Ok then ([], true) else ([], false)))))

/-- The profile model phase of `run` (screen.py lines 530-541): skipped
entirely in fast mode; otherwise create the profile model and, on failure,
refine and retry, exiting if the retry also fails. -/
def profile_phase (o : Outcomes) (fastMode : Bool) : Step :=
  if fastMode then ([], true)
  else if o.profile1Ok then ([Ev.createProfileModel], true)
  else
    sAnd ([Ev.createProfileModel], true)
      (sAnd ([Ev.refineStep], o.refineOk)
        (sAnd ([Ev.createProfileModel], true)
          (if o.profile2Ok then ([], true) else ([], false))))

/-- The reporting phase of `run` (screen.py lines 542-545): skipped in fast
mode; otherwise report, predict (result ignored) and check intensities. -/
def report_phase (o : Outcomes) (fastMode : Bool) : Step :=
  if fastMode then ([], true)
  else
    sAnd ([Ev.reportStep], o.reportOk)
      (sAnd ([Ev.predictStep], true)
        ([Ev.checkIntensities], o.checkOk))

/-- `i19_screen.run` (screen.py lines 474-550): with no arguments print the
help message and version information and return; otherwise configure logging,
strip a leading `nproc=` argument, count processors, import (unless a single
`.json` argument was given), count images, set fast mode when fewer than 10
images were found, then run the spot finding / indexing, profile model,
reporting and Bravais settings phases. -/
def screen_run (o : Outcomes) (args : List String) : Step :=
  match args with
  | [] => ([Ev.printHelp, Ev.printVersion], true)
  | a0 :: rest =>
    let nprocGiven := a0.startsWith "nproc="
    let args1 := if nprocGiven then rest else a0 :: rest
    sAnd ([Ev.configLogging], true)
      (sAnd (count_processors_step o nprocGiven)
        (sAnd (import_step o args1)
          (sAnd ([], o.countImagesOk)
            (sAnd (indexing_phase o)
              (sAnd (profile_phase o (o.nImages < 10))
                (sAnd (report_phase o (o.nImages < 10))
                  ([Ev.refineBravais], o.bravaisOk)))))))

/-! ## Theorems about the process runner -/

/-- The result mapping built by `mkResult` carries all six keys with the
given values. -/
theorem mk_result_shape (cmd : List String) (code : Int) (outS errS : String)
    (rt : ℚ) (tmo : Bool) :
    rlookup "command" (mkResult cmd code outS errS rt tmo) = some (RVal.vCmd cmd) ∧
    rlookup "exitcode" (mkResult cmd code outS errS rt tmo) = some (RVal.vInt code) ∧
    rlookup "stdout" (mkResult cmd code outS errS rt tmo) = some (RVal.vStr outS) ∧
    rlookup "stderr" (mkResult cmd code outS errS rt tmo) = some (RVal.vStr errS) ∧
    rlookup "runtime" (mkResult cmd code outS errS rt tmo) = some (RVal.vRat rt) ∧
    rlookup "timeout" (mkResult cmd code outS errS rt tmo) = some (RVal.vBool tmo) := by
  refine ⟨rfl, ?_, ?_, ?_, ?_, ?_⟩ <;> rfl

/-- `isSome` form of `mk_result_shape`, convenient for goals phrased in terms
of key presence. -/
theorem mk_result_keys (cmd : List String) (code : Int) (outS errS : String)
    (rt : ℚ) (tmo : Bool) :
    rlookup "command" (mkResult cmd code outS errS rt tmo) = some (RVal.vCmd cmd) ∧
    (rlookup "exitcode" (mkResult cmd code outS errS rt tmo)).isSome = true ∧
    (rlookup "stdout" (mkResult cmd code outS errS rt tmo)).isSome = true ∧
    (rlookup "stderr" (mkResult cmd code outS errS rt tmo)).isSome = true ∧
    (rlookup "runtime" (mkResult cmd code outS errS rt tmo)).isSome = true ∧
    (rlookup "timeout" (mkResult cmd code outS errS rt tmo)).isSome = true := by
  refine ⟨rfl, ?_, ?_, ?_, ?_, ?_⟩ <;> rfl

/-- Claim C1: every invocation of the process runner that returns a result —
clean exit, non-zero exit, or timeout — yields a mapping containing all six
keys `command`, `exitcode`, `stdout`, `stderr`, `runtime` and `timeout`, with
`command` echoing the invocation's command list. -/
theorem run_process_result_shape (inv : Invocation) (child : ChildSpec) (r : RunReturn)
    (h : run_process inv child = RunOutcome.ret r) :
    rlookup "command" r.result = some (RVal.vCmd inv.command) ∧
    (rlookup "exitcode" r.result).isSome = true ∧
    (rlookup "stdout" r.result).isSome = true ∧
    (rlookup "stderr" r.result).isSome = true ∧
    (rlookup "runtime" r.result).isSome = true ∧
    (rlookup "timeout" r.result).isSome = true := by
  unfold run_process at h
  split at h
  · exact absurd h (by simp)
  · split at h
    · split at h
      · exact absurd h (by simp)
      · injection h with h2
        subst h2
        exact mk_result_keys _ _ _ _ _ _
    · split at h
      · split at h
        · injection h with h2
          subst h2
          exact mk_result_keys _ _ _ _ _ _
        · injection h with h2
          subst h2
          exact mk_result_keys _ _ _ _ _ _
      · injection h with h2
        subst h2
        exact mk_result_keys _ _ _ _ _ _

/-- Witness for C1 at a concrete invocation and child. -/
theorem run_process_result_shape_witness :
    rlookup "command" (mkResult ["ls"] 0 "o" "e" 2 false) = some (RVal.vCmd ["ls"]) ∧
    (rlookup "exitcode" (mkResult ["ls"] 0 "o" "e" 2 false)).isSome = true ∧
    (rlookup "stdout" (mkResult ["ls"] 0 "o" "e" 2 false)).isSome = true ∧
    (rlookup "stderr" (mkResult ["ls"] 0 "o" "e" 2 false)).isSome = true ∧
    (rlookup "runtime" (mkResult ["ls"] 0 "o" "e" 2 false)).isSome = true ∧
    (rlookup "timeout" (mkResult ["ls"] 0 "o" "e" 2 false)).isSome = true :=
  run_process_result_shape ⟨["ls"], none⟩ ⟨true, some 2, 0, "o", "e", "", "", -9, true⟩
    ⟨mkResult ["ls"] 0 "o" "e" 2 false, false, false, false⟩ rfl

/-- Claim C2: a child exiting with a non-zero exit code within the deadline
(or with no timeout configured) does not make the runner raise — it returns a
result whose `exitcode` field carries the code and whose `timeout` field is
false, for the caller to inspect. -/
theorem run_process_nonzero_exit_reported (inv : Invocation) (child : ChildSpec) (t : ℚ)
    (hL : child.launchOk = true) (hE : child.exitsAt = some t)
    (hC : child.exitcode ≠ 0)
    (hD : inv.timeout = none ∨ ∃ dl, inv.timeout = some dl ∧ t ≤ dl) :
    ∃ r, run_process inv child = RunOutcome.ret r ∧
      rlookup "exitcode" r.result = some (RVal.vInt child.exitcode) ∧
      rlookup "timeout" r.result = some (RVal.vBool false) := by
  rcases hD with hD | ⟨dl, hdl, hle⟩
  · refine ⟨⟨mkResult inv.command child.exitcode child.fullStdout child.fullStderr t false,
      false, false, false⟩, ?_, ?_, ?_⟩
    · simp [run_process, hL, hD, hE]
    · exact (mk_result_shape _ _ _ _ _ _).2.1
    · exact (mk_result_shape _ _ _ _ _ _).2.2.2.2.2
  · refine ⟨⟨mkResult inv.command child.exitcode child.fullStdout child.fullStderr t false,
      false, false, false⟩, ?_, ?_, ?_⟩
    · simp [run_process, hL, hdl, hE, hle]
    · exact (mk_result_shape _ _ _ _ _ _).2.1
    · exact (mk_result_shape _ _ _ _ _ _).2.2.2.2.2

/-- Witness for C2: a child exiting with code 99 before its deadline. -/
theorem run_process_nonzero_exit_reported_witness :
    ∃ r, run_process ⟨["x"], some 5⟩ ⟨true, some 1, 99, "o", "e", "", "", -9, true⟩ =
        RunOutcome.ret r ∧
      rlookup "exitcode" r.result = some (RVal.vInt 99) ∧
      rlookup "timeout" r.result = some (RVal.vBool false) :=
  run_process_nonzero_exit_reported ⟨["x"], some 5⟩
    ⟨true, some 1, 99, "o", "e", "", "", -9, true⟩ 1 rfl rfl (by decide)
    (Or.inr ⟨5, rfl, by norm_num⟩)

/-- Claim C3: when the timeout deadline elapses before the child exits, the
runner does not raise: it returns a result whose `timeout` field is true and
whose `stdout`/`stderr` fields hold whatever partial output had been
captured. -/
theorem run_process_timeout_reported (inv : Invocation) (child : ChildSpec) (dl : ℚ)
    (hL : child.launchOk = true) (hT : inv.timeout = some dl)
    (hE : child.exitsAt = none ∨ ∃ t, child.exitsAt = some t ∧ dl < t) :
    ∃ r, run_process inv child = RunOutcome.ret r ∧
      rlookup "timeout" r.result = some (RVal.vBool true) ∧
      rlookup "stdout" r.result = some (RVal.vStr child.capturedStdout) ∧
      rlookup "stderr" r.result = some (RVal.vStr child.capturedStderr) := by
  rcases hE with hE | ⟨t, hE, hlt⟩
  · refine ⟨⟨mkResult inv.command child.killedExitcode child.capturedStdout
      child.capturedStderr (dl + gracePeriod) true, true, !child.diesWithinGrace, false⟩,
      ?_, ?_, ?_, ?_⟩
    · simp [run_process, hL, hT, hE]
    · exact (mk_result_shape _ _ _ _ _ _).2.2.2.2.2
    · exact (mk_result_shape _ _ _ _ _ _).2.2.1
    · exact (mk_result_shape _ _ _ _ _ _).2.2.2.1
  · refine ⟨⟨mkResult inv.command child.killedExitcode child.capturedStdout
      child.capturedStderr (dl + gracePeriod) true, true, !child.diesWithinGrace, false⟩,
      ?_, ?_, ?_, ?_⟩
    · simp [run_process, hL, hT, hE, not_le.mpr hlt]
    · exact (mk_result_shape _ _ _ _ _ _).2.2.2.2.2
    · exact (mk_result_shape _ _ _ _ _ _).2.2.1
    · exact (mk_result_shape _ _ _ _ _ _).2.2.2.1

/-- Witness for C3: a child that never exits under a 2 second timeout. -/
theorem run_process_timeout_reported_witness :
    ∃ r, run_process ⟨["y"], some 2⟩ ⟨true, none, 0, "", "", "po", "pe", -9, false⟩ =
        RunOutcome.ret r ∧
      rlookup "timeout" r.result = some (RVal.vBool true) ∧
      rlookup "stdout" r.result = some (RVal.vStr "po") ∧
      rlookup "stderr" r.result = some (RVal.vStr "pe") :=
  run_process_timeout_reported ⟨["y"], some 2⟩
    ⟨true, none, 0, "", "", "po", "pe", -9, false⟩ 2 rfl rfl (Or.inl rfl)

/-- Claim C4: when the deadline elapses before the child exits, the runner
unconditionally sends the graceful termination signal, and sends the forceful
kill exactly when the child does not die within the grace period; the child
is no longer running when the call returns.  When the child exits within the
deadline, neither terminate nor kill is sent. -/
theorem run_process_timeout_termination (inv : Invocation) (child : ChildSpec) (dl : ℚ)
    (hL : child.launchOk = true) (hT : inv.timeout = some dl) :
    ((child.exitsAt = none ∨ ∃ t, child.exitsAt = some t ∧ dl < t) →
      ∃ r, run_process inv child = RunOutcome.ret r ∧ r.terminateSent = true ∧
        r.killSent = !child.diesWithinGrace ∧ r.childRunningAfter = false) ∧
    (∀ t, child.exitsAt = some t → t ≤ dl →
      ∃ r, run_process inv child = RunOutcome.ret r ∧ r.terminateSent = false ∧
        r.killSent = false ∧ r.childRunningAfter = false) := by
  constructor
  · rintro (hE | ⟨t, hE, hlt⟩)
    · exact ⟨⟨mkResult inv.command child.killedExitcode child.capturedStdout
        child.capturedStderr (dl + gracePeriod) true, true, !child.diesWithinGrace, false⟩,
        by simp [run_process, hL, hT, hE], rfl, rfl, rfl⟩
    · exact ⟨⟨mkResult inv.command child.killedExitcode child.capturedStdout
        child.capturedStderr (dl + gracePeriod) true, true, !child.diesWithinGrace, false⟩,
        by simp [run_process, hL, hT, hE, not_le.mpr hlt], rfl, rfl, rfl⟩
  · intro t hE hle
    exact ⟨⟨mkResult inv.command child.exitcode child.fullStdout child.fullStderr t false,
      false, false, false⟩, by simp [run_process, hL, hT, hE, hle], rfl, rfl, rfl⟩

/-- Witness for C4: both branches at concrete children — one that never exits
and does not respond to terminate, and one exiting well within its deadline. -/
theorem run_process_timeout_termination_witness :
    (∃ r, run_process ⟨["z"], some 3⟩ ⟨true, none, 0, "", "", "", "", -9, false⟩ =
        RunOutcome.ret r ∧ r.terminateSent = true ∧ r.killSent = true ∧
        r.childRunningAfter = false) ∧
    (∃ r, run_process ⟨["w"], some 3⟩ ⟨true, some 1, 0, "", "", "", "", -9, false⟩ =
        RunOutcome.ret r ∧ r.terminateSent = false ∧ r.killSent = false ∧
        r.childRunningAfter = false) :=
  ⟨(run_process_timeout_termination ⟨["z"], some 3⟩
      ⟨true, none, 0, "", "", "", "", -9, false⟩ 3 rfl rfl).1 (Or.inl rfl),
   (run_process_timeout_termination ⟨["w"], some 3⟩
      ⟨true, some 1, 0, "", "", "", "", -9, false⟩ 3 rfl rfl).2 1 rfl (by norm_num)⟩

/-- Folding the reader over a sequence of writes appends their concatenation
to the buffer and leaves the finished flag untouched. -/
theorem nbsr_foldl_write (st : NBSRState) (ws : List String) :
    List.foldl nbsrStep st (ws.map StreamEvent.write) =
      ⟨st.buffer ++ concatAll ws, st.finished⟩ := by
  induction ws generalizing st with
  | nil => simp [concatAll]
  | cons w ws ih =>
    simp only [List.map_cons, List.foldl_cons, nbsrStep, ih, concatAll]
    rw [String.append_assoc]

/-- The finished flag can only be set by a close event. -/
theorem nbsr_finished_close (evs : List StreamEvent) :
    ∀ st : NBSRState, (List.foldl nbsrStep st evs).finished = true →
      st.finished = true ∨ StreamEvent.close ∈ evs := by
  induction evs with
  | nil => intro st h; exact Or.inl h
  | cons e evs ih =>
    intro st h
    cases e with
    | write s =>
      rcases ih (nbsrStep st (StreamEvent.write s)) h with h' | h'
      · exact Or.inl h'
      · exact Or.inr (List.mem_cons_of_mem _ h')
    | close => exact Or.inr (List.mem_cons_self _ _)

/-- Claim C5: the stream reader accumulates exactly the concatenation of the
written data in write order; `has_finished` is false while the stream is
still open and true once it has been closed and drained, and it can only
become true after a close. -/
theorem stream_reader_accumulates (ws : List String) :
    (runNBSR (ws.map StreamEvent.write)).buffer = concatAll ws ∧
    (runNBSR (ws.map StreamEvent.write)).finished = false ∧
    (runNBSR (ws.map StreamEvent.write ++ [StreamEvent.close])).buffer = concatAll ws ∧
    (runNBSR (ws.map StreamEvent.write ++ [StreamEvent.close])).finished = true ∧
    ∀ evs : List StreamEvent, (runNBSR evs).finished = true → StreamEvent.close ∈ evs := by
  have h1 := nbsr_foldl_write nbsrInit ws
  refine ⟨?_, ?_, ?_, ?_, ?_⟩
  · rw [runNBSR, h1]; rfl
  · rw [runNBSR, h1]; rfl
  · rw [runNBSR, List.foldl_append, h1]; rfl
  · rw [runNBSR, List.foldl_append, h1]; rfl
  · intro evs h
    rcases nbsr_finished_close evs nbsrInit h with h' | h'
    · exact absurd h' (by simp [nbsrInit])
    · exact h'

/-- Witness for C5 on the test's write sequence `a`, `b`, `c` followed by a
close. -/
theorem stream_reader_accumulates_witness :
    (runNBSR ([StreamEvent.write "a", StreamEvent.write "b", StreamEvent.write "c"] ++
        [StreamEvent.close])).buffer = concatAll ["a", "b", "c"] ∧
    StreamEvent.close ∈
      ([StreamEvent.write "a", StreamEvent.write "b", StreamEvent.write "c"] ++
        [StreamEvent.close]) :=
  ⟨(stream_reader_accumulates ["a", "b", "c"]).2.2.1,
   (stream_reader_accumulates ["a", "b", "c"]).2.2.2.2 _ rfl⟩

/-- Claim C6: a command that cannot be launched at all makes the runner raise
an `ExecutionError`-class exception immediately instead of returning a
result; the launch is not retried. -/
theorem run_process_launch_failure (inv : Invocation) (child : ChildSpec)
    (h : child.launchOk = false) :
    run_process inv child = RunOutcome.launchError ∧
    ∀ r, run_process inv child ≠ RunOutcome.ret r := by
  refine ⟨by simp [run_process, h], fun r hr => ?_⟩
  rw [run_process, if_pos h] at hr
  exact absurd hr (by simp)

/-- Draining the stdout pipe preserves the capacity invariant. -/
theorem drainOut_pipeInv (cap : Nat) (s : PipeState) (h : pipeInv cap s) :
    pipeInv cap (drainOut s) := by
  rcases s with ⟨sc, ob, eb, oc, ec⟩
  cases ob with
  | nil => simpa [drainOut] using h
  | cons c rest =>
    simp only [pipeInv, drainOut, List.length_cons] at h ⊢
    omega

/-- Draining the stderr pipe preserves the capacity invariant. -/
theorem drainErr_pipeInv (cap : Nat) (s : PipeState) (h : pipeInv cap s) :
    pipeInv cap (drainErr s) := by
  rcases s with ⟨sc, ob, eb, oc, ec⟩
  cases eb with
  | nil => simpa [drainErr] using h
  | cons c rest =>
    simp only [pipeInv, drainErr, List.length_cons] at h ⊢
    omega

/-- The child's write step preserves the capacity invariant: it only pushes
when the target pipe has room. -/
theorem childWrite_pipeInv (cap : Nat) (s : PipeState) (h : pipeInv cap s) :
    pipeInv cap (childWrite cap s) := by
  rcases s with ⟨sc, ob, eb, oc, ec⟩
  rcases sc with _ | ⟨⟨t, c⟩, rest⟩
  · simpa [childWrite] using h
  · cases t
    · by_cases hlt : ob.length < cap
      · simp only [pipeInv, childWrite, if_pos hlt, List.length_append,
          List.length_singleton] at h ⊢
        omega
      · simpa [childWrite, hlt] using h
    · by_cases hlt : eb.length < cap
      · simp only [pipeInv, childWrite, if_pos hlt, List.length_append,
          List.length_singleton] at h ⊢
        omega
      · simpa [childWrite, hlt] using h

/-- One tick preserves the capacity invariant. -/
theorem tick_pipeInv (cap : Nat) (s : PipeState) (h : pipeInv cap s) :
    pipeInv cap (tick cap s) :=
  childWrite_pipeInv cap _ (drainErr_pipeInv cap _ (drainOut_pipeInv cap _ h))

/-- On a completed invocation a tick does nothing. -/
theorem tick_of_done (cap : Nat) (s : PipeState) (h : pipesDone s) :
    tick cap s = s := by
  rcases s with ⟨sc, ob, eb, oc, ec⟩
  obtain ⟨h1, h2, h3⟩ := h
  subst h1; subst h2; subst h3
  rfl

/-- Progress: while the invocation is not complete, every tick strictly
decreases the remaining work — the concurrent schedule never deadlocks. -/
theorem tick_measure_lt (cap : Nat) (hc : 1 ≤ cap) (s : PipeState) (h : pipeInv cap s)
    (hnd : ¬ pipesDone s) : pmeasure (tick cap s) < pmeasure s := by
  rcases s with ⟨sc, ob, eb, oc, ec⟩
  simp only [pipeInv] at h
  rcases sc with _ | ⟨⟨t, c⟩, rest⟩
  · rcases ob with _ | ⟨c1, r1⟩ <;> rcases eb with _ | ⟨c2, r2⟩
    · exact absurd ⟨rfl, rfl, rfl⟩ hnd
    · simp [tick, drainOut, drainErr, childWrite, pmeasure]
    · simp [tick, drainOut, drainErr, childWrite, pmeasure]
    · simp only [tick, drainOut, drainErr, childWrite, pmeasure, List.length_cons,
        List.length_nil]
      omega
  · cases t
    · rcases ob with _ | ⟨c1, r1⟩
      · have h0 : 0 < cap := hc
        rcases eb with _ | ⟨c2, r2⟩ <;>
          simp [tick, drainOut, drainErr, childWrite, h0, pmeasure] <;> omega
      · have hlt : r1.length < cap := by
          have := h.1
          simp only [List.length_cons] at this
          omega
        rcases eb with _ | ⟨c2, r2⟩ <;>
          simp [tick, drainOut, drainErr, childWrite, hlt, pmeasure] <;>
          omega
    · rcases eb with _ | ⟨c2, r2⟩
      · have h0 : 0 < cap := hc
        rcases ob with _ | ⟨c1, r1⟩ <;>
          simp [tick, drainOut, drainErr, childWrite, h0, pmeasure] <;> omega
      · have hlt : r2.length < cap := by
          have := h.2
          simp only [List.length_cons] at this
          omega
        rcases ob with _ | ⟨c1, r1⟩ <;>
          simp [tick, drainOut, drainErr, childWrite, hlt, pmeasure] <;>
          omega

/-- A tick moves data around but loses none and reorders none: the eventual
content of each captured stream is unchanged. -/
theorem tick_final (cap : Nat) (s : PipeState) :
    outFinal (tick cap s) = outFinal s ∧ errFinal (tick cap s) = errFinal s := by
  rcases s with ⟨sc, ob, eb, oc, ec⟩
  rcases sc with _ | ⟨⟨t, c⟩, rest⟩
  · rcases ob with _ | ⟨c1, r1⟩ <;> rcases eb with _ | ⟨c2, r2⟩ <;>
      simp [tick, drainOut, drainErr, childWrite, outFinal, errFinal, outOf, errOf]
  · cases t <;>
      rcases ob with _ | ⟨c1, r1⟩ <;> rcases eb with _ | ⟨c2, r2⟩ <;>
      by_cases hlt : (0 : Nat) < cap <;>
      simp [tick, drainOut, drainErr, childWrite, outFinal, errFinal, outOf, errOf,
        hlt, Nat.lt_irrefl] <;>
      split <;>
      simp [outFinal, errFinal, outOf, errOf]

/-- Iterated ticks keep the eventual stream contents unchanged. -/
theorem ticksN_final (cap : Nat) : ∀ (n : Nat) (s : PipeState),
    outFinal (ticksN cap n s) = outFinal s ∧ errFinal (ticksN cap n s) = errFinal s := by
  intro n
  induction n with
  | zero => intro s; exact ⟨rfl, rfl⟩
  | succ n ih =>
    intro s
    refine ⟨?_, ?_⟩
    · rw [ticksN, (ih (tick cap s)).1, (tick_final cap s).1]
    · rw [ticksN, (ih (tick cap s)).2, (tick_final cap s).2]

/-- Termination: starting under the capacity invariant, as many ticks as the
remaining work complete the invocation. -/
theorem ticksN_done (cap : Nat) (hc : 1 ≤ cap) : ∀ (n : Nat) (s : PipeState),
    pipeInv cap s → pmeasure s ≤ n → pipesDone (ticksN cap n s) := by
  intro n
  induction n with
  | zero =>
    intro s h hm
    rcases s with ⟨sc, ob, eb, oc, ec⟩
    simp only [pmeasure] at hm
    have h1 : sc.length = 0 := by omega
    have h2 : ob.length = 0 := by omega
    have h3 : eb.length = 0 := by omega
    exact ⟨List.length_eq_zero.mp h1, List.length_eq_zero.mp h2, List.length_eq_zero.mp h3⟩
  | succ n ih =>
    intro s h hm
    by_cases hd : pipesDone s
    · have ht : tick cap s = s := tick_of_done cap s hd
      have hz : pmeasure s = 0 := by
        obtain ⟨h1, h2, h3⟩ := hd
        simp [pmeasure, h1, h2, h3]
      show pipesDone (ticksN cap n (tick cap s))
      rw [ht]
      exact ih s h (by omega)
    · exact ih (tick cap s) (tick_pipeInv cap s h)
        (Nat.lt_succ_iff.mp (lt_of_lt_of_le (tick_measure_lt cap hc s h hd) hm))

/-- Claim C7: for any child write script — in particular one writing more
than a pipe buffer of data to both streams — the concurrent drain schedule
completes without hanging, and each reader has captured exactly its stream's
data in write order. -/
theorem concurrent_drain_completes (script : List (Tgt × Char)) (cap : Nat)
    (hc : 1 ≤ cap) :
    pipesDone (ticksN cap (2 * script.length) (initPipes script)) ∧
    (ticksN cap (2 * script.length) (initPipes script)).outCapt = outOf script ∧
    (ticksN cap (2 * script.length) (initPipes script)).errCapt = errOf script := by
  have hinv : pipeInv cap (initPipes script) := by
    constructor <;> simp [initPipes]
  have hm : pmeasure (initPipes script) ≤ 2 * script.length := by
    simp [initPipes, pmeasure]
  have hdone := ticksN_done cap hc (2 * script.length) (initPipes script) hinv hm
  obtain ⟨hsc, hob, heb⟩ := hdone
  have hof := (ticksN_final cap (2 * script.length) (initPipes script)).1
  have hef := (ticksN_final cap (2 * script.length) (initPipes script)).2
  rw [outFinal, outFinal, hsc, hob] at hof
  rw [errFinal, errFinal, hsc, heb] at hef
  simp only [initPipes, outOf, List.append_nil, List.nil_append] at hof hef
  exact ⟨⟨hsc, hob, heb⟩, by simpa [outOf] using hof, by simpa [errOf] using hef⟩

/-- Witness for C7: a script alternating between both streams with pipe
capacity one — less than the data volume sent to each stream. -/
theorem concurrent_drain_completes_witness :
    pipesDone (ticksN 1
      (2 * ([(Tgt.tOut, 'a'), (Tgt.tErr, 'b'), (Tgt.tOut, 'c'), (Tgt.tErr, 'd')]).length)
      (initPipes [(Tgt.tOut, 'a'), (Tgt.tErr, 'b'), (Tgt.tOut, 'c'), (Tgt.tErr, 'd')])) ∧
    (ticksN 1
      (2 * ([(Tgt.tOut, 'a'), (Tgt.tErr, 'b'), (Tgt.tOut, 'c'), (Tgt.tErr, 'd')]).length)
      (initPipes [(Tgt.tOut, 'a'), (Tgt.tErr, 'b'), (Tgt.tOut, 'c'), (Tgt.tErr, 'd')])).outCapt =
      outOf [(Tgt.tOut, 'a'), (Tgt.tErr, 'b'), (Tgt.tOut, 'c'), (Tgt.tErr, 'd')] ∧
    (ticksN 1
      (2 * ([(Tgt.tOut, 'a'), (Tgt.tErr, 'b'), (Tgt.tOut, 'c'), (Tgt.tErr, 'd')]).length)
      (initPipes [(Tgt.tOut, 'a'), (Tgt.tErr, 'b'), (Tgt.tOut, 'c'), (Tgt.tErr, 'd')])).errCapt =
      errOf [(Tgt.tOut, 'a'), (Tgt.tErr, 'b'), (Tgt.tOut, 'c'), (Tgt.tErr, 'd')] :=
  concurrent_drain_completes
    [(Tgt.tOut, 'a'), (Tgt.tErr, 'b'), (Tgt.tOut, 'c'), (Tgt.tErr, 'd')] 1 (by decide)

/-- Witness for C6: an executable that cannot be started. -/
theorem run_process_launch_failure_witness :
    run_process ⟨["nosuch"], none⟩ ⟨false, none, 0, "", "", "", "", -9, false⟩ =
        RunOutcome.launchError ∧
    ∀ r, run_process ⟨["nosuch"], none⟩ ⟨false, none, 0, "", "", "", "", -9, false⟩ ≠
        RunOutcome.ret r :=
  run_process_launch_failure ⟨["nosuch"], none⟩
    ⟨false, none, 0, "", "", "", "", -9, false⟩ rfl

/-! ## Theorems about the pipeline driver -/

/-- Claim C8: every call to `_create_profile_model` assigns both
`_sigma_m_basic` and `_sigma_m_extended` — `None` exactly when the
corresponding external call failed — and the average-to-peak ratios of
`_check_intensities` with mosaicity correction read exactly these shared
attributes (together with the oscillation they come with), yielding ratio 1
for the basic model when `_sigma_m_basic` is unset. -/
theorem profile_model_attributes (st : ScreenState)
    (basicRun extendedRun : Option ProfileData) (erf : ℚ → ℚ) (sqrtPi : ℚ)
    (st1 st2 : ScreenState)
    (hb : st1.sigma_m_basic = none)
    (e1 : st1.sigma_m_basic = st2.sigma_m_basic)
    (e2 : st1.sigma_m_extended = st2.sigma_m_extended)
    (e3 : st1.oscillation = st2.oscillation) :
    (create_profile_model st basicRun extendedRun).1.sigma_m_basic =
      Option.map ProfileData.sigma_m basicRun ∧
    (create_profile_model st basicRun extendedRun).1.sigma_m_extended =
      Option.map ProfileData.sigma_m extendedRun ∧
    (average_to_peak_ratios erf sqrtPi st1 true).1 = 1 ∧
    average_to_peak_ratios erf sqrtPi st1 true =
      average_to_peak_ratios erf sqrtPi st2 true := by
  refine ⟨?_, ?_, ?_, ?_⟩
  · cases basicRun <;> cases extendedRun <;> simp [create_profile_model]
  · cases basicRun <;> cases extendedRun <;> simp [create_profile_model]
  · simp [average_to_peak_ratios, hb, ratioOf]
  · simp [average_to_peak_ratios, e1, e2, e3]

/-- Witness for C8: a successful basic run with a failed extended run, and
two states agreeing on the three attributes the ratio computation reads. -/
theorem profile_model_attributes_witness :
    (create_profile_model ⟨none, none, none, none⟩ (some ⟨100, 1, 2⟩) none).1.sigma_m_basic =
      Option.map ProfileData.sigma_m (some ⟨100, 1, 2⟩) ∧
    (create_profile_model ⟨none, none, none, none⟩ (some ⟨100, 1, 2⟩) none).1.sigma_m_extended =
      Option.map ProfileData.sigma_m (none : Option ProfileData) ∧
    (average_to_peak_ratios (fun x => x) 2 ⟨none, some 3, none, some 1⟩ true).1 = 1 ∧
    average_to_peak_ratios (fun x => x) 2 ⟨none, some 3, none, some 1⟩ true =
      average_to_peak_ratios (fun x => x) 2 ⟨none, some 3, some 5, some 1⟩ true :=
  profile_model_attributes ⟨none, none, none, none⟩ (some ⟨100, 1, 2⟩) none
    (fun x => x) 2 ⟨none, some 3, none, some 1⟩ ⟨none, some 3, some 5, some 1⟩
    rfl rfl rfl rfl

/-- Claim C9: with an empty argument list, `run` prints the help message and
the version information and returns at once — no logging configuration, no
external process, no pipeline step. -/
theorem run_empty_args_help (o : Outcomes) :
    screen_run o [] = ([Ev.printHelp, Ev.printVersion], true) ∧
    Ev.configLogging ∉ (screen_run o []).1 ∧
    Ev.countProcessors ∉ (screen_run o []).1 ∧
    Ev.importData ∉ (screen_run o []).1 ∧
    (∀ b, Ev.findSpots b ∉ (screen_run o []).1) ∧
    Ev.indexAttempt ∉ (screen_run o []).1 ∧
    Ev.refineStep ∉ (screen_run o []).1 ∧
    Ev.createProfileModel ∉ (screen_run o []).1 ∧
    Ev.reportStep ∉ (screen_run o []).1 ∧
    Ev.predictStep ∉ (screen_run o []).1 ∧
    Ev.checkIntensities ∉ (screen_run o []).1 ∧
    Ev.refineBravais ∉ (screen_run o []).1 := by
  refine ⟨rfl, ?_, ?_, ?_, ?_, ?_, ?_, ?_, ?_, ?_, ?_, ?_⟩ <;> simp [screen_run]

/-- Claim C10: with fewer than 10 images the driver runs in fast mode —
import, spot finding, indexing and Bravais settings refinement happen, while
profile model creation (and its refinement retry), reporting, prediction and
intensity checking are skipped; with 10 or more images all steps run. -/
theorem run_fast_mode (o : Outcomes) (a0 : String) (rest : List String)
    (hn : a0.startsWith "nproc=" = false)
    (hj : ((a0 :: rest).length == 1 && ((a0 :: rest).headD "").endsWith ".json") = false)
    (h1 : o.countProcOk = true) (h2 : o.importOk = true) (h3 : o.countImagesOk = true)
    (h4 : o.findSpots1Ok = true) (h5 : o.index1Ok = true)
    (h6 : o.profile1Ok = true) (h7 : o.reportOk = true) (h8 : o.checkOk = true) :
    (o.nImages < 10 →
      (screen_run o (a0 :: rest)).1 = [Ev.configLogging, Ev.countProcessors, Ev.importData,
        Ev.findSpots false, Ev.indexAttempt, Ev.refineBravais]) ∧
    (10 ≤ o.nImages →
      (screen_run o (a0 :: rest)).1 = [Ev.configLogging, Ev.countProcessors, Ev.importData,
        Ev.findSpots false, Ev.indexAttempt, Ev.createProfileModel, Ev.reportStep,
        Ev.predictStep, Ev.checkIntensities, Ev.refineBravais]) := by
  have hj2 : ¬(rest = [] ∧ a0.endsWith ".json" = true) := by simpa using hj
  constructor
  · intro hf
    simp [screen_run, hn, hj2, h1, h2, h3, h4, h5, h6, h7, h8, hf,
      count_processors_step, import_step, indexing_phase, profile_phase, report_phase, sAnd]
  · intro hs
    simp [screen_run, hn, hj2, h1, h2, h3, h4, h5, h6, h7, h8, not_lt.mpr hs,
      count_processors_step, import_step, indexing_phase, profile_phase, report_phase, sAnd]

/-- Witness for C10: a 5-image dataset runs the short trace, a 12-image
dataset the full one. -/
theorem run_fast_mode_witness :
    (screen_run ⟨true, true, true, 5, true, true, true, true, true, true, true, true,
        true, true⟩ ["a.cbf", "b.cbf"]).1 =
      [Ev.configLogging, Ev.countProcessors, Ev.importData, Ev.findSpots false,
        Ev.indexAttempt, Ev.refineBravais] ∧
    (screen_run ⟨true, true, true, 12, true, true, true, true, true, true, true, true,
        true, true⟩ ["a.cbf", "b.cbf"]).1 =
      [Ev.configLogging, Ev.countProcessors, Ev.importData, Ev.findSpots false,
        Ev.indexAttempt, Ev.createProfileModel, Ev.reportStep, Ev.predictStep,
        Ev.checkIntensities, Ev.refineBravais] :=
  ⟨(run_fast_mode ⟨true, true, true, 5, true, true, true, true, true, true, true, true,
      true, true⟩ "a.cbf" ["b.cbf"] (by decide) rfl rfl rfl rfl rfl rfl rfl rfl rfl).1
      (by decide),
   (run_fast_mode ⟨true, true, true, 12, true, true, true, true, true, true, true, true,
      true, true⟩ "a.cbf" ["b.cbf"] (by decide) rfl rfl rfl rfl rfl rfl rfl rfl rfl).2
      (by decide)⟩

